import Mathlib

/-!
Verification development for the morse-transceiver repository
(authoritative sources under src/platformio_project/src/).

Shallow embedding conventions:
* `millis()` / `micros()` are modelled by passing the current time `now`
  (a `Nat`) into each API call; all reads of the clock within a single
  call are assumed to return the same value (no time passes inside one
  non-blocking call).  Unsigned 32-bit tick arithmetic is modelled with
  `Nat` subtraction; the claims considered here concern monotone time
  windows far below 2^32, where the two agree.
* Registered callbacks are modelled as emitted event lists where a claim
  needs them; the `__ns_guard_*` re-entrancy flags of network-state.cpp
  are therefore vacuous (no callback ever re-enters) and are not part of
  the state.
* `Serial` logging is pure output and is not modelled.
-/

/-! ## network-state.cpp (LinkArbiter) -/

/-- `ConnectionState` as used by network-state.cpp v1.8 (FREE / TX / RX /
CONTENTION). -/
inductive ConnectionState where
  | FREE
  | TX
  | RX
  | CONTENTION
deriving DecidableEq, Repr

/-- The static module state of network-state.cpp, including the two
function-local `static` variables of `updateNetworkState`
(`lastObservedActivity`, `freeAttempts`); `lastDbg` only gates a log line
and is omitted. -/
structure NSState where
  currentState : ConnectionState
  lastStateChangeAt : Nat
  lastActivityAt : Nat
  localPressed : Bool
  localPressAt : Nat
  remotePressed : Bool
  remotePressAt : Nat
  lastObservedActivity : Nat
  freeAttempts : Nat
deriving DecidableEq, Repr

def STATE_ACTIVITY_TIMEOUT_MS : Nat := 5000
def STATE_MIN_TX_MS : Nat := 40
def STATE_MIN_RX_MS : Nat := 40

/-- `doStateChange`: no-op when the state is unchanged, otherwise records
the transition and counts it as activity. -/
def doStateChange (s : NSState) (st : ConnectionState) (now : Nat) : NSState :=
  if st = s.currentState then s
  else { s with currentState := st, lastStateChangeAt := now, lastActivityAt := now }

/-- `resolveContention`: time-based pseudo-random tie-break
(`millis() % 2`). -/
def resolveContention (s : NSState) (now : Nat) : NSState :=
  if now % 2 = 0 then doStateChange s ConnectionState.TX now
  else doStateChange s ConnectionState.RX now

/-- The trailing fallback of `updateNetworkState`: double-timeout forced
FREE, only when TX and neither side pressed. -/
def updFallback (s : NSState) (now : Nat) : NSState :=
  if s.currentState = ConnectionState.TX ∧ s.localPressed = false ∧
     s.remotePressed = false ∧
     now - s.lastActivityAt ≥ STATE_ACTIVITY_TIMEOUT_MS * 2 then
    doStateChange s ConnectionState.FREE now
  else s

/-- `updateNetworkState`, translated branch by branch (CONTENTION
resolution, regular idle timeout, diagnostic forced-FREE section with its
static snapshot, double-timeout fallback). -/
def updateNetworkState (s : NSState) (now : Nat) : NSState :=
  if s.currentState = ConnectionState.CONTENTION then
    resolveContention s now
  else if s.currentState ≠ ConnectionState.FREE ∧
          now - s.lastActivityAt ≥ STATE_ACTIVITY_TIMEOUT_MS ∧
          s.localPressed = false ∧ s.remotePressed = false then
    doStateChange s ConnectionState.FREE now
  else if s.lastObservedActivity ≠ s.lastActivityAt then
    updFallback { s with lastObservedActivity := s.lastActivityAt, freeAttempts := 0 } now
  else if now - s.lastObservedActivity ≥ STATE_ACTIVITY_TIMEOUT_MS ∧
          s.currentState = ConnectionState.TX ∧
          s.localPressed = false ∧ s.remotePressed = false then
    doStateChange { s with freeAttempts := s.freeAttempts + 1 } ConnectionState.FREE now
  else
    updFallback s now

/-- `initNetworkState` (the `static` locals of `updateNetworkState` are
zero-initialised at load and are not reset by init). -/
def initNetworkState (now : Nat) : NSState :=
  { currentState := ConnectionState.FREE
    lastStateChangeAt := now
    lastActivityAt := now
    localPressed := false
    localPressAt := 0
    remotePressed := false
    remotePressAt := 0
    lastObservedActivity := 0
    freeAttempts := 0 }

/-- `ns_requestLocalDown`. -/
def ns_requestLocalDown (s : NSState) (now : Nat) : NSState :=
  if s.localPressed then s
  else
    let s1 := { s with localPressed := true, localPressAt := now, lastActivityAt := now }
    let s2 := if s1.remotePressed then doStateChange s1 ConnectionState.CONTENTION now
              else doStateChange s1 ConnectionState.TX now
    updateNetworkState s2 now

/-- `ns_requestLocalUp`. -/
def ns_requestLocalUp (s : NSState) (now : Nat) : NSState :=
  if s.localPressed = false then s
  else
    let dur := now - s.localPressAt
    let s1 := { s with localPressed := false, lastActivityAt := now }
    if dur < STATE_MIN_TX_MS then
      updateNetworkState s1 now
    else if s1.remotePressed then
      updateNetworkState (doStateChange s1 ConnectionState.RX now) now
    else if now - s1.lastActivityAt ≥ STATE_ACTIVITY_TIMEOUT_MS then
      updateNetworkState (doStateChange s1 ConnectionState.FREE now) now
    else
      let s2 := if s1.currentState = ConnectionState.TX ∨
                   s1.currentState = ConnectionState.CONTENTION then
                  (if s1.currentState ≠ ConnectionState.TX then
                     doStateChange s1 ConnectionState.TX now
                   else s1)
                else s1
      updateNetworkState s2 now

/-- `ns_requestLocalSymbol` (activity refresh + re-evaluation; the symbol
itself only feeds the local-symbol callback). -/
def ns_requestLocalSymbol (s : NSState) (now : Nat) : NSState :=
  updateNetworkState { s with lastActivityAt := now } now

/-- `ns_notifyRemoteDown`. -/
def ns_notifyRemoteDown (s : NSState) (now : Nat) : NSState :=
  if s.remotePressed then s
  else
    let s1 := { s with remotePressed := true, remotePressAt := now, lastActivityAt := now }
    let s2 := if s1.localPressed then doStateChange s1 ConnectionState.CONTENTION now
              else doStateChange s1 ConnectionState.RX now
    updateNetworkState s2 now

/-- `ns_notifyRemoteUp`. -/
def ns_notifyRemoteUp (s : NSState) (now : Nat) : NSState :=
  if s.remotePressed = false then s
  else
    let dur := now - s.remotePressAt
    let s1 := { s with remotePressed := false, lastActivityAt := now }
    if dur < STATE_MIN_RX_MS then
      updateNetworkState s1 now
    else
      let s2 := if s1.currentState = ConnectionState.RX ∨
                   s1.currentState = ConnectionState.CONTENTION then
                  (if s1.localPressed then doStateChange s1 ConnectionState.TX now
                   else doStateChange s1 ConnectionState.FREE now)
                else s1
      updateNetworkState s2 now

/-- `ns_notifyRemoteSymbol` (activity refresh + re-evaluation). -/
def ns_notifyRemoteSymbol (s : NSState) (now : Nat) : NSState :=
  updateNetworkState { s with lastActivityAt := now } now

/-- One LinkArbiter API call together with the clock value at which it
occurs. -/
inductive NSCall where
  | localDown (now : Nat)
  | localUp (now : Nat)
  | localSymbol (now : Nat)
  | remoteDown (now : Nat)
  | remoteUp (now : Nat)
  | remoteSymbol (now : Nat)
  | update (now : Nat)
deriving DecidableEq, Repr

def nsApply (s : NSState) (c : NSCall) : NSState :=
  match c with
  | NSCall.localDown now => ns_requestLocalDown s now
  | NSCall.localUp now => ns_requestLocalUp s now
  | NSCall.localSymbol now => ns_requestLocalSymbol s now
  | NSCall.remoteDown now => ns_notifyRemoteDown s now
  | NSCall.remoteUp now => ns_notifyRemoteUp s now
  | NSCall.remoteSymbol now => ns_notifyRemoteSymbol s now
  | NSCall.update now => updateNetworkState s now

def nsRun (s : NSState) (cs : List NSCall) : NSState :=
  cs.foldl nsApply s

/-! ## Lemmas about the LinkArbiter step functions -/

theorem doStateChange_currentState (s : NSState) (st : ConnectionState) (now : Nat) :
    (doStateChange s st now).currentState = st := by
  unfold doStateChange
  split
  case isTrue h => exact h.symm
  case isFalse h => rfl

theorem resolveContention_currentState (s : NSState) (now : Nat) :
    (resolveContention s now).currentState = ConnectionState.TX ∨
    (resolveContention s now).currentState = ConnectionState.RX := by
  unfold resolveContention
  split
  · exact Or.inl (doStateChange_currentState ..)
  · exact Or.inr (doStateChange_currentState ..)

theorem updFallback_currentState (s : NSState) (now : Nat) :
    (updFallback s now).currentState = s.currentState ∨
    (updFallback s now).currentState = ConnectionState.FREE := by
  unfold updFallback
  split
  · exact Or.inr (doStateChange_currentState ..)
  · exact Or.inl rfl

theorem updateNetworkState_ne_contention (s : NSState) (now : Nat) :
    (updateNetworkState s now).currentState ≠ ConnectionState.CONTENTION := by
  unfold updateNetworkState
  split
  case isTrue h =>
    rcases resolveContention_currentState s now with h' | h' <;> simp [h']
  case isFalse hc =>
    split
    · simp [doStateChange_currentState]
    · split
      · rcases updFallback_currentState
          { s with lastObservedActivity := s.lastActivityAt, freeAttempts := 0 } now with h' | h' <;>
          simp_all
      · split
        · simp [doStateChange_currentState]
        · rcases updFallback_currentState s now with h' | h' <;> simp_all

theorem nsApply_ne_contention (s : NSState) (c : NSCall)
    (h : s.currentState ≠ ConnectionState.CONTENTION) :
    (nsApply s c).currentState ≠ ConnectionState.CONTENTION := by
  cases c <;>
    simp only [nsApply, ns_requestLocalDown, ns_requestLocalUp, ns_requestLocalSymbol,
      ns_notifyRemoteDown, ns_notifyRemoteUp, ns_notifyRemoteSymbol] <;>
    (repeat' split) <;>
    first
      | exact h
      | apply updateNetworkState_ne_contention

theorem nsRun_ne_contention (cs : List NSCall) (s : NSState)
    (h : s.currentState ≠ ConnectionState.CONTENTION) :
    (nsRun s cs).currentState ≠ ConnectionState.CONTENTION := by
  induction cs generalizing s with
  | nil => exact h
  | cons c cs ih => exact ih (nsApply s c) (nsApply_ne_contention s c h)

/-- C1: starting from `initNetworkState`, after any sequence of LinkArbiter
API calls (`ns_requestLocalDown`, `ns_requestLocalUp`,
`ns_requestLocalSymbol`, `ns_notifyRemoteDown`, `ns_notifyRemoteUp`,
`ns_notifyRemoteSymbol`, `updateNetworkState`) the externally observable
state is never `CONTENTION`: any call that drives the state to
`CONTENTION` resolves it to `TX` or `RX` via `resolveContention` before
returning. -/
theorem C1_contention_is_transient (now0 : Nat) (cs : List NSCall) :
    (nsRun (initNetworkState now0) cs).currentState ≠ ConnectionState.CONTENTION := by
  exact nsRun_ne_contention cs (initNetworkState now0) (by simp [initNetworkState])

theorem updateNetworkState_fresh (s : NSState) (now : Nat)
    (hA : s.lastActivityAt = now)
    (hc : s.currentState ≠ ConnectionState.CONTENTION) :
    (updateNetworkState s now).currentState = s.currentState := by
  have h0 : now - s.lastActivityAt = 0 := by rw [hA, Nat.sub_self]
  unfold updateNetworkState updFallback
  rw [if_neg hc]
  split
  case isTrue h2 =>
    exact absurd h2.2.1 (by rw [h0]; simp [STATE_ACTIVITY_TIMEOUT_MS])
  case isFalse h2 =>
    split
    case isTrue h3 =>
      split
      case isTrue h4 =>
        exact absurd h4.2.2.2 (by simp only [hA]; rw [Nat.sub_self]; simp [STATE_ACTIVITY_TIMEOUT_MS])
      case isFalse h4 => rfl
    case isFalse h3 =>
      push_neg at h3
      split
      case isTrue h4 =>
        exact absurd h4.1 (by rw [h3, h0]; simp [STATE_ACTIVITY_TIMEOUT_MS])
      case isFalse h4 =>
        split
        case isTrue h5 =>
          exact absurd h5.2.2.2 (by rw [h0]; simp [STATE_ACTIVITY_TIMEOUT_MS])
        case isFalse h5 => rfl

/-- C2 counterexample: a key press at t=0 puts the arbiter in TX with the
remote side inactive; the release (`ns_requestLocalUp`) at t=100 leaves
the state TX — it does not transition to FREE as the claim states
(the code logs "maintaining TX until idle timeout"). -/
theorem C2_release_counterexample :
    (ns_requestLocalDown (initNetworkState 0) 0).currentState = ConnectionState.TX ∧
    (ns_requestLocalDown (initNetworkState 0) 0).remotePressed = false ∧
    (ns_requestLocalUp (ns_requestLocalDown (initNetworkState 0) 0) 100).currentState
      = ConnectionState.TX ∧
    (ns_requestLocalUp (ns_requestLocalDown (initNetworkState 0) 0) 100).currentState
      ≠ ConnectionState.FREE := by
  decide

/-- C2 (amended): on a localUp event delivered while LinkState is TX
(press duration at least STATE_MIN_TX_MS), the state transitions to RX if
the remote side became active during the press, and otherwise *remains TX*
(FREE is reached only later through the idle timeout). -/
theorem C2_release_amended (s : NSState) (now : Nat)
    (htx : s.currentState = ConnectionState.TX)
    (hp : s.localPressed = true)
    (hdur : ¬ (now - s.localPressAt < STATE_MIN_TX_MS)) :
    (ns_requestLocalUp s now).currentState =
      (if s.remotePressed then ConnectionState.RX else ConnectionState.TX) := by
  unfold ns_requestLocalUp
  rw [hp]
  simp only [Bool.true_eq_false, if_false]
  rw [if_neg hdur]
  by_cases hr : s.remotePressed = true
  · simp only [hr, if_true]
    rw [updateNetworkState_fresh _ now
        (by unfold doStateChange; rw [if_neg (by simp [htx])])
        (by rw [doStateChange_currentState]; simp),
      doStateChange_currentState]
  · simp only [Bool.not_eq_true] at hr
    simp only [hr, Bool.false_eq_true, if_false]
    rw [if_neg (by simp [STATE_ACTIVITY_TIMEOUT_MS])]
    rw [if_pos (Or.inl htx), if_neg (by simp [htx])]
    rw [updateNetworkState_fresh _ now rfl (by simp [htx])]
    exact htx

theorem C2_release_amended_witness :
    (ns_requestLocalUp ⟨ConnectionState.TX, 0, 0, true, 0, false, 0, 0, 0⟩ 100).currentState =
      (if (⟨ConnectionState.TX, 0, 0, true, 0, false, 0, 0, 0⟩ : NSState).remotePressed
       then ConnectionState.RX else ConnectionState.TX) :=
  C2_release_amended ⟨ConnectionState.TX, 0, 0, true, 0, false, 0, 0, 0⟩ 100 rfl rfl (by decide)

/-- C3 counterexample: a press at t=0 leaves `localPressed` stuck (the
release edge is never delivered).  At t=10000 the idle window
(≥ ACTIVITY_TIMEOUT_MS = 5000 ms) has long expired and the state is TX,
yet `updateNetworkState` does *not* force FREE — every timeout branch is
guarded by `!localPressed && !remotePressed`. -/
theorem C3_timeout_counterexample :
    (ns_requestLocalDown (initNetworkState 0) 0).currentState ≠ ConnectionState.FREE ∧
    (ns_requestLocalDown (initNetworkState 0) 0).localPressed = true ∧
    10000 - (ns_requestLocalDown (initNetworkState 0) 0).lastActivityAt
      ≥ STATE_ACTIVITY_TIMEOUT_MS ∧
    (updateNetworkState (ns_requestLocalDown (initNetworkState 0) 0) 10000).currentState
      ≠ ConnectionState.FREE := by
  decide

/-- C3 (amended): if LinkState is TX or RX, *both* internal pressed flags
are clear, and no activity occurred for ACTIVITY_TIMEOUT_MS, the next
`updateNetworkState` forces FREE.  (With a stuck pressed flag the state is
retained, contrary to the original claim.) -/
theorem C3_timeout_amended (s : NSState) (now : Nat)
    (hne : s.currentState ≠ ConnectionState.FREE)
    (hnc : s.currentState ≠ ConnectionState.CONTENTION)
    (hl : s.localPressed = false)
    (hr : s.remotePressed = false)
    (ht : now - s.lastActivityAt ≥ STATE_ACTIVITY_TIMEOUT_MS) :
    (updateNetworkState s now).currentState = ConnectionState.FREE := by
  unfold updateNetworkState
  rw [if_neg hnc, if_pos ⟨hne, ht, hl, hr⟩, doStateChange_currentState]

theorem C3_timeout_amended_witness :
    (updateNetworkState ⟨ConnectionState.TX, 0, 0, false, 0, false, 0, 0, 0⟩ 5000).currentState
      = ConnectionState.FREE :=
  C3_timeout_amended ⟨ConnectionState.TX, 0, 0, false, 0, false, 0, 0, 0⟩ 5000
    (by decide) (by decide) rfl rfl (by decide)

/-! ## telegrapher.cpp (Telegrapher) -/

def MIN_DOWN_MS : Nat := 35
def DOT_MAX_MS : Nat := 200
def LETTER_GAP_MS : Nat := 500
def LONG_PRESS_MS : Nat := 3000

/-- Events emitted through the telegrapher's local callbacks, in call
order. -/
inductive TGEvent where
  | localDown
  | localUp
  | localSymbol (sym : Char) (dur : Nat)
  | finalize
  | longPress
deriving DecidableEq, Repr

/-- The non-queue internal state of telegrapher.cpp v1.9 (`letter_buf`
with its length is a `List Char` of capacity 31; the ISR ring buffer is
passed explicitly to `telegrapher_update`). -/
structure TGState where
  local_state_down : Bool
  last_local_down_ms : Nat
  last_local_up_ms : Nat
  last_edge_us : Nat
  long_press_handled : Bool
  boot_ms : Nat
  letter_buf : List Char
deriving DecidableEq, Repr

/-- `letter_push_symbol`: space-separated append, bounded by the 32-byte
buffer (31 chars + NUL). -/
def letter_push_symbol (buf : List Char) (sym : Char) : List Char :=
  if ¬(sym = '.' ∨ sym = '-') then buf
  else
    let buf1 := if 0 < buf.length ∧ buf.length + 1 < 32 then buf ++ [' '] else buf
    if buf1.length + 1 < 32 then buf1 ++ [sym] else buf1

/-- `classifySymbol`: no upper bound for dash. -/
def classifySymbol (dur_ms : Nat) : Char :=
  if dur_ms ≤ DOT_MAX_MS then '.' else '-'

/-- `telegrapher_init` at clock value `now` (`boot_ms = millis()`). -/
def telegrapher_init (now : Nat) : TGState :=
  { local_state_down := false
    last_local_down_ms := 0
    last_local_up_ms := 0
    last_edge_us := 0
    long_press_handled := false
    boot_ms := now
    letter_buf := [] }

/-- `process_edge_nonisr`, returning the new state and the callback events
emitted (in order). -/
def process_edge_nonisr (s : TGState) (down : Bool) (edge_us process_ms : Nat) :
    TGState × List TGEvent :=
  if down then
    if s.local_state_down then (s, [])
    else ({ s with local_state_down := true, last_local_down_ms := process_ms,
                   last_edge_us := edge_us, long_press_handled := false,
                   letter_buf := [] },
          [TGEvent.localDown])
  else
    if s.local_state_down = false then (s, [])
    else
      let s1 := { s with local_state_down := false, last_local_up_ms := process_ms }
      let dur := process_ms - s.last_local_down_ms
      if dur < MIN_DOWN_MS then (s1, [TGEvent.localUp])
      else if s1.long_press_handled then
        ({ s1 with long_press_handled := false }, [TGEvent.localUp])
      else
        let sym := classifySymbol dur
        ({ s1 with letter_buf := letter_push_symbol s1.letter_buf sym },
         [TGEvent.localSymbol sym dur, TGEvent.localUp])

/-- The long-press detection block of `telegrapher_update` (guarded in
the first 5 s after boot; fires at most once per press). -/
def tg_longpress_phase (s : TGState) (now : Nat) : TGState × List TGEvent :=
  if s.local_state_down = true ∧ s.long_press_handled = false ∧
     now - s.boot_ms > 5000 ∧ now - s.last_local_down_ms ≥ LONG_PRESS_MS then
    ({ s with long_press_handled := true }, [TGEvent.longPress])
  else (s, [])

/-- The letter-finalize block of `telegrapher_update` (fires once the
letter gap has elapsed since the last release, then disarms by zeroing
`last_local_up_ms` and clears the letter buffer). -/
def tg_finalize_phase (s : TGState) (now : Nat) : TGState × List TGEvent :=
  if s.local_state_down = false ∧ s.last_local_up_ms ≠ 0 ∧
     now - s.last_local_up_ms ≥ LETTER_GAP_MS then
    ({ s with last_local_up_ms := 0, letter_buf := [] }, [TGEvent.finalize])
  else (s, [])

/-- The long-press and finalize sections of `telegrapher_update` (run in
this order after the queued edges have been processed). -/
def telegrapher_tick (s : TGState) (now : Nat) : TGState × List TGEvent :=
  ((tg_finalize_phase (tg_longpress_phase s now).1 now).1,
   (tg_longpress_phase s now).2 ++ (tg_finalize_phase (tg_longpress_phase s now).1 now).2)

/-- Drain the queued key edges through `process_edge_nonisr` (each pop
reads `millis()`; a single `now` is used for the whole drain). -/
def tg_process_queue (s : TGState) (q : List (Bool × Nat)) (now : Nat) :
    TGState × List TGEvent :=
  match q with
  | [] => (s, [])
  | (d, t_us) :: rest =>
      let r1 := process_edge_nonisr s d t_us now
      let r2 := tg_process_queue r1.1 rest now
      (r2.1, r1.2 ++ r2.2)

/-- `telegrapher_update`: drain the edge queue, then long-press detection,
then letter finalize. -/
def telegrapher_update (s : TGState) (q : List (Bool × Nat)) (now : Nat) :
    TGState × List TGEvent :=
  let r1 := tg_process_queue s q now
  let r2 := telegrapher_tick r1.1 now
  (r2.1, r1.2 ++ r2.2)

/-! ## Telegrapher theorems -/

/-- C4: every completed press that the telegrapher classifies (real press,
not consumed by the long-press callback) yields `'.'` iff its duration is
at most DOT_MAX_MS and `'-'` otherwise (no upper bound); the classified
symbol is pushed onto the letter buffer and emitted as
`localSymbol(sym, dur)` (followed by `localUp`). -/
theorem C4_classification (s : TGState) (eus pms : Nat)
    (hdown : s.local_state_down = true)
    (hlp : s.long_press_handled = false)
    (hmin : ¬ (pms - s.last_local_down_ms < MIN_DOWN_MS)) :
    (process_edge_nonisr s false eus pms).2 =
      [TGEvent.localSymbol (classifySymbol (pms - s.last_local_down_ms))
        (pms - s.last_local_down_ms), TGEvent.localUp] ∧
    (classifySymbol (pms - s.last_local_down_ms) =
      if pms - s.last_local_down_ms ≤ DOT_MAX_MS then '.' else '-') ∧
    (process_edge_nonisr s false eus pms).1.letter_buf =
      letter_push_symbol s.letter_buf (classifySymbol (pms - s.last_local_down_ms)) ∧
    (s.letter_buf = [] →
      (process_edge_nonisr s false eus pms).1.letter_buf =
        [classifySymbol (pms - s.last_local_down_ms)]) := by
  unfold process_edge_nonisr
  simp only [Bool.false_eq_true, if_false, hdown, hlp]
  rw [if_neg hmin]
  simp only [Bool.true_eq_false, if_false]
  refine ⟨by simp, rfl, by simp, fun h => ?_⟩
  rw [h]
  by_cases hd : pms - s.last_local_down_ms ≤ DOT_MAX_MS <;>
    simp [classifySymbol, letter_push_symbol, hd]

theorem C4_classification_witness :
    ((process_edge_nonisr ⟨true, 0, 0, 0, false, 0, []⟩ false 0 100).2 =
      [TGEvent.localSymbol (classifySymbol (100 - 0)) (100 - 0), TGEvent.localUp] ∧
    (classifySymbol (100 - 0) = if (100 : Nat) - 0 ≤ DOT_MAX_MS then '.' else '-') ∧
    (process_edge_nonisr ⟨true, 0, 0, 0, false, 0, []⟩ false 0 100).1.letter_buf =
      letter_push_symbol [] (classifySymbol (100 - 0)) ∧
    (([] : List Char) = [] →
      (process_edge_nonisr ⟨true, 0, 0, 0, false, 0, []⟩ false 0 100).1.letter_buf =
        [classifySymbol (100 - 0)])) :=
  C4_classification ⟨true, 0, 0, 0, false, 0, []⟩ 0 100 rfl rfl (by decide)

theorem process_edge_no_longPress (s : TGState) (d : Bool) (eus pms : Nat) :
    TGEvent.longPress ∉ (process_edge_nonisr s d eus pms).2 := by
  simp only [process_edge_nonisr]
  (repeat' split) <;> simp

theorem tg_process_queue_no_longPress (q : List (Bool × Nat)) (s : TGState) (now : Nat) :
    TGEvent.longPress ∉ (tg_process_queue s q now).2 := by
  induction q generalizing s with
  | nil => simp [tg_process_queue]
  | cons e rest ih =>
    obtain ⟨d, t⟩ := e
    simp only [tg_process_queue, List.mem_append]
    rintro (h | h)
    · exact process_edge_no_longPress s d t now h
    · exact ih _ h

theorem process_edge_boot_ms (s : TGState) (d : Bool) (eus pms : Nat) :
    (process_edge_nonisr s d eus pms).1.boot_ms = s.boot_ms := by
  simp only [process_edge_nonisr]
  (repeat' split) <;> rfl

theorem tg_process_queue_boot_ms (q : List (Bool × Nat)) (s : TGState) (now : Nat) :
    (tg_process_queue s q now).1.boot_ms = s.boot_ms := by
  induction q generalizing s with
  | nil => rfl
  | cons e rest ih =>
    obtain ⟨d, t⟩ := e
    simp only [tg_process_queue]
    rw [ih, process_edge_boot_ms]

theorem tg_longpress_phase_no_finalize (s : TGState) (now : Nat) :
    TGEvent.finalize ∉ (tg_longpress_phase s now).2 := by
  unfold tg_longpress_phase
  split <;> simp

theorem tg_longpress_phase_up_ms (s : TGState) (now : Nat) :
    (tg_longpress_phase s now).1.last_local_up_ms = s.last_local_up_ms := by
  unfold tg_longpress_phase
  split <;> rfl

theorem tg_longpress_phase_not_fired (s : TGState) (now : Nat)
    (h : ¬ now - s.boot_ms > 5000) :
    tg_longpress_phase s now = (s, []) := by
  unfold tg_longpress_phase
  rw [if_neg (by rintro ⟨-, -, h3, -⟩; exact h h3)]

theorem tg_finalize_phase_no_longPress (s : TGState) (now : Nat) :
    TGEvent.longPress ∉ (tg_finalize_phase s now).2 := by
  unfold tg_finalize_phase
  split <;> simp

theorem tg_finalize_phase_resets (s : TGState) (now : Nat) :
    TGEvent.finalize ∈ (tg_finalize_phase s now).2 →
    (tg_finalize_phase s now).1.last_local_up_ms = 0 := by
  unfold tg_finalize_phase
  split <;> intro hmem
  · rfl
  · simp at hmem

theorem tg_finalize_phase_not_fired (s : TGState) (now : Nat)
    (h : s.last_local_up_ms = 0) :
    tg_finalize_phase s now = (s, []) := by
  unfold tg_finalize_phase
  rw [if_neg (by rintro ⟨-, h2, -⟩; exact h2 h)]

theorem telegrapher_tick_finalize_resets (s : TGState) (now : Nat)
    (hmem : TGEvent.finalize ∈ (telegrapher_tick s now).2) :
    (telegrapher_tick s now).1.last_local_up_ms = 0 := by
  rcases List.mem_append.mp hmem with h | h
  · exact absurd h (tg_longpress_phase_no_finalize s now)
  · exact tg_finalize_phase_resets _ now h

theorem telegrapher_tick_no_finalize_of_cleared (s : TGState) (now : Nat)
    (h : s.last_local_up_ms = 0) :
    TGEvent.finalize ∉ (telegrapher_tick s now).2 := by
  intro hmem
  rcases List.mem_append.mp hmem with hm | hm
  · exact tg_longpress_phase_no_finalize s now hm
  · rw [tg_finalize_phase_not_fired _ now (by rw [tg_longpress_phase_up_ms]; exact h)] at hm
    simp at hm

theorem telegrapher_tick_no_longPress (s : TGState) (now : Nat)
    (h : now ≤ s.boot_ms + 5000) :
    TGEvent.longPress ∉ (telegrapher_tick s now).2 := by
  intro hmem
  rcases List.mem_append.mp hmem with hm | hm
  · rw [tg_longpress_phase_not_fired s now (by omega)] at hm
    simp at hm
  · exact tg_finalize_phase_no_longPress _ now hm

/-- C10: while at most 5000 ms have elapsed since `telegrapher_init`
(`boot_ms`), `telegrapher_update` never fires the LongPress callback, no
matter which edges are queued and how long the key has been held. -/
theorem C10_longpress_boot_guard (s : TGState) (q : List (Bool × Nat)) (now : Nat)
    (hguard : now ≤ s.boot_ms + 5000) :
    TGEvent.longPress ∉ (telegrapher_update s q now).2 := by
  unfold telegrapher_update
  simp only [List.mem_append, not_or]
  refine ⟨tg_process_queue_no_longPress q s now, ?_⟩
  exact telegrapher_tick_no_longPress _ now (by rw [tg_process_queue_boot_ms]; exact hguard)

theorem C10_longpress_boot_guard_witness :
    TGEvent.longPress ∉ (telegrapher_update ⟨true, 500, 0, 0, false, 0, []⟩ [] 4000).2 :=
  C10_longpress_boot_guard ⟨true, 500, 0, 0, false, 0, []⟩ [] 4000 (by decide)

/-- C8 counterexample: a press (down at 0, up at 100) leaves `'.'` in the
letter buffer; at t=300 no letter boundary has occurred (no finalize:
gap 200 < LETTER_GAP_MS); yet the second press of the *same* letter
(down at 300) clears the buffer — `process_edge_nonisr` clears on every
accepted down edge, discarding the previously appended symbol. -/
theorem C8_buffer_counterexample :
    (process_edge_nonisr (process_edge_nonisr (telegrapher_init 0) true 0 0).1
      false 0 100).1.letter_buf = ['.'] ∧
    (telegrapher_tick (process_edge_nonisr (process_edge_nonisr (telegrapher_init 0) true 0 0).1
      false 0 100).1 300).2 = [] ∧
    (process_edge_nonisr (telegrapher_tick (process_edge_nonisr
      (process_edge_nonisr (telegrapher_init 0) true 0 0).1 false 0 100).1 300).1
      true 0 300).2 = [TGEvent.localDown] ∧
    (process_edge_nonisr (telegrapher_tick (process_edge_nonisr
      (process_edge_nonisr (telegrapher_init 0) true 0 0).1 false 0 100).1 300).1
      true 0 300).1.letter_buf = [] := by
  decide

/-- C8 (amended): the letter buffer is cleared on finalize and on *every*
accepted down edge (each new press starts a fresh buffer, not only the
first press after a letter boundary); a long press still suppresses only
its own symbol (the buffer is untouched on such a release); and at most
one Finalize fires per completed letter (firing resets the gap timer). -/
theorem C8_buffer_amended :
    (∀ (s : TGState) (eus pms : Nat), s.local_state_down = false →
      (process_edge_nonisr s true eus pms).1.letter_buf = [] ∧
      (process_edge_nonisr s true eus pms).2 = [TGEvent.localDown]) ∧
    (∀ (s : TGState) (eus pms : Nat), s.local_state_down = true →
      s.long_press_handled = true → ¬ (pms - s.last_local_down_ms < MIN_DOWN_MS) →
      (process_edge_nonisr s false eus pms).2 = [TGEvent.localUp] ∧
      (process_edge_nonisr s false eus pms).1.letter_buf = s.letter_buf) ∧
    (∀ (s : TGState) (now now2 : Nat),
      TGEvent.finalize ∈ (telegrapher_tick s now).2 →
      TGEvent.finalize ∉ (telegrapher_tick (telegrapher_tick s now).1 now2).2) := by
  refine ⟨?_, ?_, ?_⟩
  · intro s eus pms h
    unfold process_edge_nonisr
    simp [h]
  · intro s eus pms h1 h2 h3
    unfold process_edge_nonisr
    simp only [Bool.false_eq_true, if_false, h1, Bool.true_eq_false]
    rw [if_neg h3]
    simp [h2]
  · intro s now now2 hmem
    exact telegrapher_tick_no_finalize_of_cleared _ now2
      (telegrapher_tick_finalize_resets s now hmem)

theorem C8_buffer_amended_witness :
    ((process_edge_nonisr ⟨false, 0, 0, 0, false, 0, ['.']⟩ true 0 300).1.letter_buf = [] ∧
     (process_edge_nonisr ⟨false, 0, 0, 0, false, 0, ['.']⟩ true 0 300).2 = [TGEvent.localDown]) ∧
    ((process_edge_nonisr ⟨true, 0, 0, 0, true, 0, ['.']⟩ false 0 4000).2 = [TGEvent.localUp] ∧
     (process_edge_nonisr ⟨true, 0, 0, 0, true, 0, ['.']⟩ false 0 4000).1.letter_buf = ['.']) ∧
    TGEvent.finalize ∉
      (telegrapher_tick (telegrapher_tick ⟨false, 0, 100, 0, false, 0, ['.']⟩ 600).1 1200).2 :=
  ⟨C8_buffer_amended.1 ⟨false, 0, 0, 0, false, 0, ['.']⟩ 0 300 rfl,
   C8_buffer_amended.2.1 ⟨true, 0, 0, 0, true, 0, ['.']⟩ 0 4000 rfl rfl (by decide),
   C8_buffer_amended.2.2 ⟨false, 0, 100, 0, false, 0, ['.']⟩ 600 1200 (by decide)⟩

/-! ## morse-key.cpp (KeyInput ISR edge handler) -/

def ISR_DEBOUNCE_US : Nat := 20000
def MK_EVENT_Q_SZ : Nat := 32

/-- The ISR-side static state of morse-key.cpp v1.4.  `last_isr_state`
is an `Int` (C levels 0/1, with -1 as the pre-init sentinel).  The
telegrapher ring receives the same accepted edge that the local queue
does, so accepted edges are reported through the `Option` result. -/
structure MKState where
  last_isr_us : Nat
  last_isr_state : Int
  use_pullup : Bool
  mk_q : List (Bool × Nat)
  mk_dropped_events : Nat
  mk_duplicate_isr : Nat
deriving DecidableEq, Repr

/-- `morse_key_init`: seeds `last_isr_us` with the current `micros()` and
`last_isr_state` with the raw level read at init. -/
def morse_key_init (now_us : Nat) (initial_raw : Int) (pullup : Bool) : MKState :=
  { last_isr_us := now_us
    last_isr_state := initial_raw
    use_pullup := pullup
    mk_q := []
    mk_dropped_events := 0
    mk_duplicate_isr := 0 }

/-- `mk_isr_handler` on one raw transition: time debounce (note that
`last_isr_us` is refreshed even on an ignored transition), duplicate raw
level suppression, then forward to the telegrapher (the `Option` result)
and enqueue locally with drop-oldest overflow. -/
def mk_isr_handler (s : MKState) (now_us : Nat) (raw : Int) :
    MKState × Option (Bool × Nat) :=
  if now_us - s.last_isr_us < ISR_DEBOUNCE_US then
    ({ s with last_isr_us := now_us, mk_duplicate_isr := s.mk_duplicate_isr + 1 }, none)
  else if raw = s.last_isr_state then
    ({ s with last_isr_us := now_us, mk_duplicate_isr := s.mk_duplicate_isr + 1 }, none)
  else
    let down := if s.use_pullup then raw == 0 else raw == 1
    let dropOld := s.mk_q.length ≥ MK_EVENT_Q_SZ
    ({ s with last_isr_us := now_us, last_isr_state := raw,
              mk_q := (if dropOld then s.mk_q.drop 1 else s.mk_q) ++ [(down, now_us)],
              mk_dropped_events :=
                if dropOld then s.mk_dropped_events + 1 else s.mk_dropped_events },
     some (down, now_us))

/-- Modelled from the spec wording of C9 (for comparison only): a raw
transition should be ignored exactly when fewer than ISR_DEBOUNCE_US
elapsed since the previous *accepted* transition, or when the raw level
equals the last *accepted* level. -/
def specKeyEdgeIgnored (lastAcceptedUs : Nat) (lastAcceptedLevel : Int)
    (now_us : Nat) (raw : Int) : Bool :=
  (now_us - lastAcceptedUs < ISR_DEBOUNCE_US) || (raw == lastAcceptedLevel)

/-- C9 counterexample: transitions at 25000 (level 0, accepted), 40000
(level 1, ignored by the time filter) and 56000 (level 1).  The last
accepted transition is at 25000 with level 0, so per the claim the third
transition must be enqueued (31000 µs elapsed, level differs); the code
ignores it, because the ignored transition at 40000 also reset the
debounce clock (`last_isr_us` is updated on every invocation). -/
theorem C9_debounce_counterexample :
    (mk_isr_handler (morse_key_init 0 1 true) 25000 0).2 = some (true, 25000) ∧
    (mk_isr_handler (mk_isr_handler (morse_key_init 0 1 true) 25000 0).1 40000 1).2
      = none ∧
    (mk_isr_handler (mk_isr_handler (mk_isr_handler (morse_key_init 0 1 true) 25000 0).1
      40000 1).1 56000 1).2 = none ∧
    specKeyEdgeIgnored 25000 0 56000 1 = false := by
  decide

/-- C9 (amended): a transition is ignored exactly when fewer than
ISR_DEBOUNCE_US elapsed since the *previous raw invocation of the handler*
(accepted or ignored — the debounce clock resets on every invocation), or
when the raw level equals the last enqueued level; every other transition
is enqueued as a KeyEdge (and forwarded to the telegrapher). -/
theorem C9_debounce_amended (s : MKState) (now_us : Nat) (raw : Int) :
    (mk_isr_handler s now_us raw).2 =
      (if now_us - s.last_isr_us < ISR_DEBOUNCE_US ∨ raw = s.last_isr_state then none
       else some ((if s.use_pullup then raw == 0 else raw == 1), now_us)) ∧
    (mk_isr_handler s now_us raw).1.mk_q =
      (if now_us - s.last_isr_us < ISR_DEBOUNCE_US ∨ raw = s.last_isr_state then s.mk_q
       else (if s.mk_q.length ≥ MK_EVENT_Q_SZ then s.mk_q.drop 1 else s.mk_q) ++
            [((if s.use_pullup then raw == 0 else raw == 1), now_us)]) := by
  simp only [mk_isr_handler]
  (repeat' split) <;> simp_all <;> omega

/-! ## morse-telecom.cpp (LineProtocol) -/

/-- Decimal rendering of an unsigned value, as `snprintf "%lu"` does
(most significant digit first; `0` renders as "0"). -/
def natToDecimal (n : Nat) : List Char :=
  if _h : n < 10 then [Nat.digitChar n]
  else natToDecimal (n / 10) ++ [Nat.digitChar (n % 10)]
decreasing_by exact Nat.div_lt_self (by omega) (by omega)

/-- `strtoul(p, NULL, 10)` on a digit-leading suffix: consume decimal
digits greedily, stop at the first non-digit.  (The whitespace/sign
skipping of `strtoul` is not modelled; protocol lines never contain
either.) -/
def strtoulFrom : List Char → Nat → Nat
  | [], acc => acc
  | c :: t, acc => if c.isDigit then strtoulFrom t (acc * 10 + (c.toNat - 48)) else acc

/-- `strstr(line, pat)` followed by skipping `pat` itself: the suffix of
`line` just after the first occurrence of `pat`, if any. -/
def findAfterSubstr (pat : List Char) : List Char → Option (List Char)
  | [] => if pat.isPrefixOf ([] : List Char) then some [] else none
  | c :: t =>
    if pat.isPrefixOf (c :: t) then some ((c :: t).drop pat.length)
    else findAfterSubstr pat t

/-- `strchr(line, ':')` then `p++; sym = p[0]`: the character right after
the first colon (the C code reads the NUL terminator, modelled as
`Char.ofNat 0`, when the line ends at the colon). -/
def charAfterFirstColon : List Char → Option Char
  | [] => none
  | c :: t =>
    if c = ':' then
      (match t with
       | [] => some (Char.ofNat 0)
       | d :: _ => some d)
    else charAfterFirstColon t

/-- The remote-side callback invoked by
`morse_telecom_handleIncomingLine` (alive / alive_ack / unknown lines
invoke none). -/
inductive MTEvent where
  | remoteDown
  | remoteUp
  | remoteSymbol (sym : Char) (dur : Nat)
deriving DecidableEq, Repr

/-- `morse_telecom_sendSymbol`: validates the symbol and produces the
line `sym:<c>;dur:<n>` handed to `nc_enqueueOutgoing` (string constants
written as explicit char lists). -/
def morse_telecom_sendSymbol (sym : Char) (dur : Nat) : Option (List Char) :=
  if sym ≠ '.' ∧ sym ≠ '-' then none
  else some (['s', 'y', 'm', ':'] ++ [sym] ++ [';', 'd', 'u', 'r', ':'] ++ natToDecimal dur)

/-- `morse_telecom_handleIncomingLine`: dispatch on the line prefix and
report which remote callback fires (none for alive/alive_ack/unknown). -/
def morse_telecom_handleIncomingLine (line : List Char) : Option MTEvent :=
  if line = [] then none
  else if line = ['a', 'l', 'i', 'v', 'e'] then none
  else if line = ['a', 'l', 'i', 'v', 'e', '_', 'a', 'c', 'k'] then none
  else if line = ['D', 'O', 'W', 'N'] then some MTEvent.remoteDown
  else if line = ['U', 'P'] then some MTEvent.remoteUp
  else if (['s', 'y', 'm', ':'].isPrefixOf line) ∨
          (['r', '_', 's', 'y', 'm', ':'].isPrefixOf line) then
    match charAfterFirstColon line with
    | none => none
    | some symc =>
      let dur := match findAfterSubstr ['d', 'u', 'r', ':'] line with
                 | none => 0
                 | some rest => strtoulFrom rest 0
      some (MTEvent.remoteSymbol symc dur)
  else none

theorem digitChar_isDigit (n : Nat) (h : n < 10) :
    (Nat.digitChar n).isDigit = true := by
  interval_cases n <;> decide

theorem digitChar_toNat_sub (n : Nat) (h : n < 10) :
    (Nat.digitChar n).toNat - 48 = n := by
  interval_cases n <;> decide

theorem natToDecimal_all_digits (n : Nat) :
    ∀ c ∈ natToDecimal n, c.isDigit = true := by
  induction n using Nat.strong_induction_on with
  | _ n ih =>
    rw [natToDecimal]
    split
    case isTrue h =>
      intro c hc
      rw [List.mem_singleton] at hc
      rw [hc]
      exact digitChar_isDigit n h
    case isFalse h =>
      intro c hc
      rcases List.mem_append.mp hc with hc | hc
      · exact ih (n / 10) (Nat.div_lt_self (by omega) (by omega)) c hc
      · rw [List.mem_singleton] at hc
        rw [hc]
        exact digitChar_isDigit (n % 10) (Nat.mod_lt n (by omega))

theorem strtoulFrom_append_digits (xs ys : List Char) (acc : Nat)
    (h : ∀ c ∈ xs, c.isDigit = true) :
    strtoulFrom (xs ++ ys) acc = strtoulFrom ys (strtoulFrom xs acc) := by
  induction xs generalizing acc with
  | nil => rfl
  | cons c t ih =>
    have hc : c.isDigit = true := h c (List.mem_cons_self c t)
    simp only [List.cons_append, strtoulFrom, hc, if_true]
    exact ih _ (fun d hd => h d (List.mem_cons_of_mem c hd))

theorem strtoulFrom_natToDecimal_acc (n : Nat) :
    ∀ acc, strtoulFrom (natToDecimal n) acc =
      acc * 10 ^ (natToDecimal n).length + n := by
  induction n using Nat.strong_induction_on with
  | _ n ih =>
    intro acc
    rw [natToDecimal]
    split
    case isTrue h =>
      simp only [strtoulFrom, digitChar_isDigit n h, if_true,
        digitChar_toNat_sub n h, List.length_singleton]
      ring
    case isFalse h =>
      rw [strtoulFrom_append_digits _ _ acc
        (natToDecimal_all_digits (n / 10))]
      rw [ih (n / 10) (Nat.div_lt_self (by omega) (by omega)) acc]
      have h10 : n % 10 < 10 := Nat.mod_lt n (by omega)
      simp only [strtoulFrom, digitChar_isDigit _ h10, if_true,
        digitChar_toNat_sub _ h10, List.length_append, List.length_singleton]
      rw [pow_succ]
      have := Nat.div_add_mod n 10
      ring_nf
      omega

theorem strtoulFrom_natToDecimal (n : Nat) :
    strtoulFrom (natToDecimal n) 0 = n := by
  rw [strtoulFrom_natToDecimal_acc n 0]
  simp

/-- C5: for both symbols and every duration, encoding a symbol message
with `morse_telecom_sendSymbol` and decoding the produced line with
`morse_telecom_handleIncomingLine` invokes the remote-symbol handler with
exactly the original symbol and duration. -/
theorem C5_symbol_roundtrip (sym : Char) (dur : Nat)
    (h : sym = '.' ∨ sym = '-') :
    (morse_telecom_sendSymbol sym dur).bind morse_telecom_handleIncomingLine =
      some (MTEvent.remoteSymbol sym dur) := by
  rcases h with h | h <;> subst h <;>
    simp [morse_telecom_sendSymbol, morse_telecom_handleIncomingLine,
      charAfterFirstColon, findAfterSubstr, List.isPrefixOf,
      strtoulFrom_natToDecimal]

theorem C5_symbol_roundtrip_witness :
    (morse_telecom_sendSymbol '.' 120).bind morse_telecom_handleIncomingLine =
      some (MTEvent.remoteSymbol '.' 120) :=
  C5_symbol_roundtrip '.' 120 (Or.inl rfl)

/-! ## network-connect.cpp (PeerNegotiator) -/

def SCAN_INTERVAL_MS : Nat := 800
def SCAN_TIMEOUT_MS : Nat := 7000
def MAX_SCAN_ATTEMPTS : Nat := 3
def CONNECT_RETRY_MS : Nat := 4000
def CONNECT_WIFI_TIMEOUT_MS : Nat := 5000
def HEARTBEAT_INTERVAL_MS : Nat := 1500
def HEARTBEAT_TIMEOUT_MS : Nat := 6000
def OUTQ_SIZE : Nat := 32

/-- `NC_State` from network-connect.h. -/
inductive NC_State where
  | NC_SCANNING
  | NC_CONNECTING
  | NC_CONNECTED
  | NC_AP_MODE
  | NC_DISCONNECTED
deriving DecidableEq, Repr

/-- Outcome of `WiFi.scanComplete()` at one poll: still running, failed
(`WIFI_SCAN_FAILED`), or completed with the channel of the well-known
SSID when it is among the results. -/
inductive NCScanResult where
  | running
  | failed
  | done (foundCh : Option Nat)
deriving DecidableEq, Repr

/-- The static module state of network-connect.cpp v1.1 that the claims
touch (`lastScanResult` and `lastStatusLog` only gate log lines;
`peerIPbuf`/`rxLineBuf` carry no control flow relevant here). -/
structure NCConn where
  state : NC_State
  actingAsClient : Bool
  lastScan : Nat
  scanAttempts : Nat
  connectStart : Nat
  lastHeartbeatSent : Nat
  lastHeartbeatReceived : Nat
  outQueue : List (List Char)
deriving DecidableEq, Repr

/-- The polled environment of one `updateNetworkConnect` call: clock and
the results of the WiFi/TCP queries made during that call. -/
structure NCEnv where
  now : Nat
  scan : NCScanResult
  apScanFound : Option Nat
  wifiConnected : Bool
  localIPisAP : Bool
  tcpConnectOk : Bool
  clientConnected : Bool
  serverHasClient : Bool
  heartbeatSeen : Bool
deriving DecidableEq, Repr

/-- `outq_push`: bounded FIFO, drop-oldest on overflow. -/
def outq_push (q : List (List Char)) (line : List Char) : List (List Char) :=
  if line = [] then q
  else if q.length ≥ OUTQ_SIZE then q.drop 1 ++ [line]
  else q ++ [line]

/-- `outq_send_one_if_connected`: returns (new queue, line written to the
stream if any, C return value). -/
def outq_send_one_if_connected (q : List (List Char)) (connected : Bool) :
    List (List Char) × Option (List Char) × Bool :=
  match q with
  | [] => ([], none, true)
  | l :: t => if connected then (t, some l, true) else (l :: t, none, false)

/-- The `while (outCount > 0) { if (!outq_send_one_if_connected()) break; }`
flush loop: returns (remaining queue, lines sent in order). -/
def ncFlushLoop (q : List (List Char)) (connected : Bool) :
    List (List Char) × List (List Char) :=
  match q with
  | [] => ([], [])
  | l :: t =>
    if connected then
      let r := ncFlushLoop t connected
      (r.1, l :: r.2)
    else (l :: t, [])

/-- `initNetworkConnect` (note `scanAttempts = 1`: the scan started at
init counts as the first attempt). -/
def initNetworkConnect (now : Nat) : NCConn :=
  { state := NC_State.NC_SCANNING
    actingAsClient := false
    lastScan := now
    scanAttempts := 1
    connectStart := now
    lastHeartbeatSent := now
    lastHeartbeatReceived := now
    outQueue := [] }

/-- The `NC_SCANNING` case of `updateNetworkConnect`. -/
def nc_scanning_step (c : NCConn) (e : NCEnv) : NCConn :=
  if e.now - c.lastScan < SCAN_INTERVAL_MS then c
  else
    match e.scan with
    | NCScanResult.running =>
      if e.now - c.lastScan > SCAN_TIMEOUT_MS then
        { c with scanAttempts := c.scanAttempts + 1, lastScan := e.now }
      else c
    | NCScanResult.done found =>
      if c.scanAttempts ≤ MAX_SCAN_ATTEMPTS then
        match found with
        | some _ch => { c with state := NC_State.NC_CONNECTING, connectStart := e.now }
        | none =>
          if c.scanAttempts + 1 > MAX_SCAN_ATTEMPTS then
            { c with scanAttempts := c.scanAttempts + 1, state := NC_State.NC_AP_MODE }
          else
            { c with scanAttempts := c.scanAttempts + 1, lastScan := e.now }
      else { c with lastScan := e.now }
    | NCScanResult.failed => { c with lastScan := e.now }

/-- The `NC_CONNECTING` case of `updateNetworkConnect`. -/
def nc_connecting_step (c : NCConn) (e : NCEnv) : NCConn × List (List Char) :=
  if e.wifiConnected then
    if e.localIPisAP then ({ c with state := NC_State.NC_AP_MODE }, [])
    else if e.now - c.connectStart ≥ CONNECT_RETRY_MS then
      if e.tcpConnectOk then
        let r := ncFlushLoop c.outQueue true
        ({ c with state := NC_State.NC_CONNECTED, actingAsClient := true,
                  lastHeartbeatSent := e.now, lastHeartbeatReceived := e.now,
                  outQueue := r.1 }, r.2)
      else ({ c with connectStart := e.now }, [])
    else (c, [])
  else if e.now - c.connectStart > CONNECT_WIFI_TIMEOUT_MS then
    ({ c with state := NC_State.NC_DISCONNECTED }, [])
  else (c, [])

/-- The `NC_CONNECTED` case of `updateNetworkConnect` (incoming-line
processing is abstracted to whether a heartbeat was received). -/
def nc_connected_step (c : NCConn) (e : NCEnv) : NCConn × List (List Char) :=
  if e.clientConnected = false then
    if c.actingAsClient then
      ({ c with actingAsClient := false, state := NC_State.NC_CONNECTING,
                connectStart := e.now }, [])
    else ({ c with state := NC_State.NC_AP_MODE }, [])
  else
    let c1 := if c.actingAsClient = true ∧
                 e.now - c.lastHeartbeatSent ≥ HEARTBEAT_INTERVAL_MS then
                { c with lastHeartbeatSent := e.now }
              else c
    if e.now - c1.lastHeartbeatReceived ≥ HEARTBEAT_TIMEOUT_MS then
      if c1.actingAsClient then
        ({ c1 with actingAsClient := false, state := NC_State.NC_CONNECTING,
                   connectStart := e.now }, [])
      else ({ c1 with state := NC_State.NC_AP_MODE }, [])
    else
      let r := ncFlushLoop c1.outQueue true
      let c2 := { c1 with outQueue := r.1 }
      (if e.heartbeatSeen then { c2 with lastHeartbeatReceived := e.now } else c2, r.2)

/-- The `NC_AP_MODE` case of `updateNetworkConnect`: accept one inbound
client (flushing the queue at once on accept), serve an existing client,
then the periodic background re-scan for an external advertiser. -/
def nc_ap_step (c : NCConn) (e : NCEnv) : NCConn × List (List Char) :=
  let accepted := e.serverHasClient = true ∧ e.clientConnected = false
  let r1 :=
    if accepted then
      let f := ncFlushLoop c.outQueue true
      ({ c with state := NC_State.NC_CONNECTED, actingAsClient := false,
                lastHeartbeatSent := e.now, lastHeartbeatReceived := e.now,
                outQueue := f.1 }, f.2)
    else (c, [])
  let r2 :=
    if e.clientConnected = true ∨ accepted then
      let f := ncFlushLoop r1.1.outQueue true
      ({ r1.1 with outQueue := f.1 }, f.2)
    else (r1.1, [])
  let c2 := r2.1
  if e.now - c2.lastScan > 20000 then
    match e.apScanFound with
    | some _ch =>
      ({ c2 with state := NC_State.NC_CONNECTING, connectStart := e.now,
                 lastScan := e.now }, r1.2 ++ r2.2)
    | none => ({ c2 with lastScan := e.now }, r1.2 ++ r2.2)
  else (c2, r1.2 ++ r2.2)

/-- The `NC_DISCONNECTED` case of `updateNetworkConnect`. -/
def nc_disconnected_step (c : NCConn) (e : NCEnv) : NCConn :=
  if e.now - c.connectStart > CONNECT_RETRY_MS then
    { c with state := NC_State.NC_CONNECTING, connectStart := e.now }
  else c

/-- `updateNetworkConnect`: dispatch on the current state; the second
component lists the queued lines written to the stream during this call
(direct heartbeat prints bypass the queue and are not listed). -/
def updateNetworkConnect (c : NCConn) (e : NCEnv) : NCConn × List (List Char) :=
  match c.state with
  | NC_State.NC_SCANNING => (nc_scanning_step c e, [])
  | NC_State.NC_CONNECTING => nc_connecting_step c e
  | NC_State.NC_CONNECTED => nc_connected_step c e
  | NC_State.NC_AP_MODE => nc_ap_step c e
  | NC_State.NC_DISCONNECTED => (nc_disconnected_step c e, [])

def ncRun (c : NCConn) (es : List NCEnv) : NCConn :=
  es.foldl (fun c e => (updateNetworkConnect c e).1) c

/-- Whether a completed scan found the well-known SSID. -/
def scanFoundSSID : NCScanResult → Bool
  | NCScanResult.done (some _) => true
  | _ => false

theorem nc_step_preserves_no_client (c : NCConn) (e : NCEnv)
    (h1 : c.state = NC_State.NC_SCANNING ∨ c.state = NC_State.NC_AP_MODE ∨
          c.state = NC_State.NC_CONNECTED)
    (h2 : c.actingAsClient = false)
    (hs : scanFoundSSID e.scan = false) (ha : e.apScanFound = none) :
    ((updateNetworkConnect c e).1.state = NC_State.NC_SCANNING ∨
     (updateNetworkConnect c e).1.state = NC_State.NC_AP_MODE ∨
     (updateNetworkConnect c e).1.state = NC_State.NC_CONNECTED) ∧
    (updateNetworkConnect c e).1.actingAsClient = false := by
  rcases h1 with hst | hst | hst
  · simp only [updateNetworkConnect, hst, nc_scanning_step]
    (repeat' split) <;> simp_all [scanFoundSSID]
  · simp only [updateNetworkConnect, hst, nc_ap_step, ha]
    (repeat' split) <;> simp_all
  · simp only [updateNetworkConnect, hst, nc_connected_step]
    (repeat' split) <;> simp_all

theorem ncRun_no_connecting (es : List NCEnv) (c : NCConn)
    (h1 : c.state = NC_State.NC_SCANNING ∨ c.state = NC_State.NC_AP_MODE ∨
          c.state = NC_State.NC_CONNECTED)
    (h2 : c.actingAsClient = false)
    (hno : ∀ e ∈ es, scanFoundSSID e.scan = false ∧ e.apScanFound = none) :
    (ncRun c es).state ≠ NC_State.NC_CONNECTING := by
  induction es generalizing c with
  | nil =>
    rcases h1 with hst | hst | hst <;> simp [ncRun, hst]
  | cons e rest ih =>
    have he := hno e (List.mem_cons_self e rest)
    have hstep := nc_step_preserves_no_client c e h1 h2 he.1 he.2
    exact ih (updateNetworkConnect c e).1 hstep.1 hstep.2
      (fun e' he' => hno e' (List.mem_cons_of_mem e he'))

/-- C6: in a run whose scans never find the well-known SSID, (a) starting
from Scanning the PeerNegotiator never reaches NC_CONNECTING, and (b) the
completed scan on which the attempt counter reaches MAX_SCAN_ATTEMPTS
without finding the SSID switches the state from NC_SCANNING straight to
NC_AP_MODE (host mode: broadcast + listen). -/
theorem C6_host_fallback :
    (∀ (c : NCConn) (es : List NCEnv),
       c.state = NC_State.NC_SCANNING → c.actingAsClient = false →
       (∀ e ∈ es, scanFoundSSID e.scan = false ∧ e.apScanFound = none) →
       (ncRun c es).state ≠ NC_State.NC_CONNECTING) ∧
    (∀ (c : NCConn) (e : NCEnv),
       c.state = NC_State.NC_SCANNING → c.scanAttempts = MAX_SCAN_ATTEMPTS →
       e.now - c.lastScan ≥ SCAN_INTERVAL_MS → e.scan = NCScanResult.done none →
       (updateNetworkConnect c e).1.state = NC_State.NC_AP_MODE) := by
  constructor
  · intro c es hst hcl hno
    exact ncRun_no_connecting es c (Or.inl hst) hcl hno
  · intro c e hst hat hiv hdone
    simp only [updateNetworkConnect, hst, nc_scanning_step, hdone]
    rw [if_neg (by omega)]
    simp only [hat, MAX_SCAN_ATTEMPTS]
    norm_num

theorem C6_host_fallback_witness :
    ((ncRun (initNetworkConnect 0)
        [⟨800, NCScanResult.done none, none, false, false, false, false, false, false⟩,
         ⟨1600, NCScanResult.done none, none, false, false, false, false, false, false⟩,
         ⟨2400, NCScanResult.done none, none, false, false, false, false, false, false⟩]).state
      ≠ NC_State.NC_CONNECTING) ∧
    (updateNetworkConnect
        ⟨NC_State.NC_SCANNING, false, 1600, 3, 0, 0, 0, []⟩
        ⟨2400, NCScanResult.done none, none, false, false, false, false, false, false⟩).1.state
      = NC_State.NC_AP_MODE :=
  ⟨C6_host_fallback.1 (initNetworkConnect 0) _ rfl rfl (by decide),
   C6_host_fallback.2 ⟨NC_State.NC_SCANNING, false, 1600, 3, 0, 0, 0, []⟩
     ⟨2400, NCScanResult.done none, none, false, false, false, false, false, false⟩
     rfl rfl (by decide) rfl⟩

/-- C7 counterexample: with two lines queued and the stream writable, a
single `updateNetworkConnect` call in the connected state sends **both**
lines — its flush loop repeatedly calls `outq_send_one_if_connected`
until the queue is empty, so the queue is drained as a burst within one
flush step, not one line per step. -/
theorem C7_flush_counterexample :
    (updateNetworkConnect ⟨NC_State.NC_CONNECTED, true, 0, 1, 0, 0, 0, [['a'], ['b']]⟩
        ⟨100, NCScanResult.running, none, true, false, false, true, false, false⟩).2
      = [['a'], ['b']] ∧
    (updateNetworkConnect ⟨NC_State.NC_CONNECTED, true, 0, 1, 0, 0, 0, [['a'], ['b']]⟩
        ⟨100, NCScanResult.running, none, true, false, false, true, false, false⟩).2.length
      ≠ 1 := by
  decide

/-- C7 (amended): each single `outq_send_one_if_connected` call sends at
most one queued line (exactly one when the queue is nonempty and the
stream is writable, none otherwise), but the connected-state flush loop
of `updateNetworkConnect` calls it until the queue empties, draining the
whole queue within one update call. -/
theorem C7_flush_amended :
    (∀ (l : List Char) (t : List (List Char)),
       outq_send_one_if_connected (l :: t) true = (t, some l, true)) ∧
    (∀ (l : List Char) (t : List (List Char)),
       outq_send_one_if_connected (l :: t) false = (l :: t, none, false)) ∧
    outq_send_one_if_connected [] true = ([], none, true) ∧
    (∀ q : List (List Char), ncFlushLoop q true = ([], q)) := by
  refine ⟨fun l t => rfl, fun l t => rfl, rfl, ?_⟩
  intro q
  induction q with
  | nil => rfl
  | cons l t ih => simp [ncFlushLoop, ih]
